import Mathlib

/-!
Verification development for the `bentoml.tensorflow` adapter module
(`src/bentoml/tensorflow.py`).

The development shallowly embeds the parts of the module the claims are
about:

* the class `_tf_function_wrapper` (lines 93-154): its `__init__` merge of
  positional and keyword tensor specs into one dict, its `__call__`
  validation/coercion pipeline, and the bulk `hook_loaded_model` hook;
* the `_TensorflowRunner` derived properties `num_replica` and
  `num_concurrency_per_replica` (lines 399-413) together with
  `_is_gpu_available` (lines 86-90);
* the `load` entry point for tensorflow-hub registry entries
  (lines 199-235) and the `save` entry point (lines 342-367).

Argument values and tensor specs are opaque type parameters `V` and `S`;
the external collaborator `cast_tensor_by_spec` is an abstract function
parameter, and the original wrapped callable is a field of the wrapper.
Python dicts are embedded as association lists with Python dict update
semantics (assignment to an existing key replaces the value in place,
assignment to a fresh key appends).  Python exceptions are embedded as
`Except` errors.
-/

namespace BentoTF

/-- Python-level runtime errors that `_tf_function_wrapper.__call__` can
raise: the `TypeError` raised by iterating or subscripting `None`, the
unexpected-keyword `TypeError` of line 113, the duplicate-argument
`TypeError` of line 118, and the `KeyError` of a failed dict subscript. -/
inductive PyErr where
  | noneNotIterable
  | noneNotSubscriptable
  | unexpectedKeyword (k : String)
  | duplicateArguments (ks : List String)
  | keyError (k : String)
  deriving DecidableEq, Repr

/-- Lookup in an association list standing for a Python dict keyed by
strings: the value of the first (and, for a well-formed dict, only)
binding of the key. -/
def dlookup {S : Type} : List (String × S) → String → Option S
  | [], _ => none
  | (k1, v1) :: tl, k => if k1 = k then some v1 else dlookup tl k

/-- Python dict assignment `d[k] = v`: if the key is present its value is
replaced in place (insertion order kept), otherwise the binding is
appended at the end. -/
def dictInsert {S : Type} (d : List (String × S)) (k : String) (v : S) :
    List (String × S) :=
  if (dlookup d k).isSome then
    d.map (fun p => if p.1 = k then (k, v) else p)
  else
    d ++ [(k, v)]

/-- Python `d.update(kw)`: successive dict assignments of the bindings of
`kw`, in order, into `d`. -/
def dictUpdate {S : Type} (d : List (String × S)) (kw : List (String × S)) :
    List (String × S) :=
  kw.foldl (fun acc p => dictInsert acc p.1 p.2) d

/-- Python dict comprehension `d = {k: v for k, v in pairs}`: successive
dict assignments into an empty dict. -/
def dictFromPairs {S : Type} (pairs : List (String × S)) : List (String × S) :=
  dictUpdate [] pairs

/-- State of a `_tf_function_wrapper` instance (tensorflow.py lines
93-105).  `origin_func` is the wrapped callable, taking the positional
argument tuple and the keyword argument dict; `arg_names`, `arg_specs`
and `kwarg_specs` are the attributes of the same names.  The attribute
`kwarg_specs` keeps the Optional type of the constructor parameter even
though `__init__` always stores a dict in it; this is what makes the
`is None` test of line 108 on it unreachable. -/
structure _tf_function_wrapper (V S : Type) where
  origin_func : List V → List (String × V) → V
  arg_names : Option (List String)
  arg_specs : Option (List S)
  kwarg_specs : Option (List (String × S))

/-- The merged spec dict computed by `__init__` (lines 104-105):
`{k: v for k, v in zip(arg_names or [], arg_specs or [])}` followed by
`.update(kwarg_specs or {})`. -/
def mergedSpecs {S : Type} (arg_names : Option (List String))
    (arg_specs : Option (List S)) (kwarg_specs : Option (List (String × S))) :
    List (String × S) :=
  dictUpdate (dictFromPairs ((arg_names.getD []).zip (arg_specs.getD [])))
    (kwarg_specs.getD [])

/-- Constructor `_tf_function_wrapper.__init__` (lines 94-105): stores the
original callable and the raw `arg_names`/`arg_specs` parameters, and
always stores the merged dict (never `None`) in `kwarg_specs`. -/
def _tf_function_wrapper.make {V S : Type}
    (origin_func : List V → List (String × V) → V)
    (arg_names : Option (List String)) (arg_specs : Option (List S))
    (kwarg_specs : Option (List (String × S))) : _tf_function_wrapper V S :=
  ⟨origin_func, arg_names, arg_specs, some (mergedSpecs arg_names arg_specs kwarg_specs)⟩

/-- Lines 111-113 of `__call__`: `for k in kwargs: if k not in
self.kwarg_specs: raise TypeError(...)`.  Raises at the first keyword not
present in the spec dict; iterating `k not in None` would itself raise a
`TypeError` (possible only if the attribute were `None`, which `__init__`
rules out). -/
def checkKwargs {V S : Type} (d : Option (List (String × S))) :
    List (String × V) → Except PyErr Unit
  | [] => .ok ()
  | (k, _) :: rest =>
    match d with
    | none => .error PyErr.noneNotIterable
    | some l =>
      if (dlookup l k).isSome then checkKwargs d rest
      else .error (PyErr.unexpectedKeyword k)

/-- Line 115 of `__call__`: `arg_keys = {k for k, _ in
zip(self.arg_names, args)}` as the ordered list of parameter names that
the positional arguments bind.  `zip(None, args)` raises a `TypeError`
before producing anything. -/
def getArgKeys {V : Type} (arg_names : Option (List String)) (args : List V) :
    Except PyErr (List String) :=
  match arg_names with
  | none => .error PyErr.noneNotIterable
  | some ns => .ok ((ns.zip args).map Prod.fst)

/-- Lines 116-118 of `__call__`: the set `arg_keys & set(kwargs)` of names
supplied both positionally and by keyword, represented as a deduplicated
list. -/
def dupKeys (argKeys : List String) (kwKeys : List String) : List String :=
  (argKeys.filter (fun k => kwKeys.contains k)).dedup

/-- Lines 123-125 of `__call__`: `tuple(cast_tensor_by_spec(arg, spec) for
arg, spec in zip(args, self.arg_specs))`.  `zip` pairs up to the shorter
list, so positional arguments beyond the spec list do not appear in the
result; `zip(args, None)` raises a `TypeError`. -/
def transformArgs {V S : Type} (cast : V → S → V) (arg_specs : Option (List S))
    (args : List V) : Except PyErr (List V) :=
  match arg_specs with
  | none => .error PyErr.noneNotIterable
  | some ss => .ok ((args.zip ss).map (fun p => cast p.1 p.2))

/-- Lines 127-130 of `__call__`: `{k: cast_tensor_by_spec(arg,
self.kwarg_specs[k]) for k, arg in kwargs.items()}`, evaluated in order;
a spec dict subscript on a missing key would be a `KeyError` (ruled out
by the earlier keyword check). -/
def transformKwargs {V S : Type} (cast : V → S → V)
    (d : Option (List (String × S))) :
    List (String × V) → Except PyErr (List (String × V))
  | [] => .ok []
  | (k, v) :: rest =>
    match d with
    | none => .error PyErr.noneNotSubscriptable
    | some l =>
      match dlookup l k with
      | none => .error (PyErr.keyError k)
      | some s =>
        match transformKwargs cast d rest with
        | .error e => .error e
        | .ok tl => .ok ((k, cast v s) :: tl)

/-- Body of `_tf_function_wrapper.__call__` (lines 107-131): forward
unmodified when both recorded spec attributes are `None` (line 108),
otherwise validate keyword names, reject names supplied both positionally
and by keyword, coerce positional then keyword arguments through
`cast_tensor_by_spec`, and delegate to the original callable. -/
def tfCall {V S : Type} (cast : V → S → V) (w : _tf_function_wrapper V S)
    (args : List V) (kwargs : List (String × V)) : Except PyErr V :=
  if w.arg_specs.isNone && w.kwarg_specs.isNone then
    .ok (w.origin_func args kwargs)
  else
    match checkKwargs w.kwarg_specs kwargs with
    | .error e => .error e
    | .ok _ =>
      match getArgKeys w.arg_names args with
      | .error e => .error e
      | .ok argKeys =>
        if dupKeys argKeys (kwargs.map Prod.fst) = [] then
          match transformArgs cast w.arg_specs args with
          | .error e => .error e
          | .ok targs =>
            match transformKwargs cast w.kwarg_specs kwargs with
            | .error e => .error e
            | .ok tkwargs => .ok (w.origin_func targs tkwargs)
        else
          .error (PyErr.duplicateArguments (dupKeys argKeys (kwargs.map Prod.fst)))

@[simp]
lemma make_origin_func {V S : Type} (f : List V → List (String × V) → V)
    (ns : Option (List String)) (sp : Option (List S))
    (kw : Option (List (String × S))) :
    (_tf_function_wrapper.make f ns sp kw).origin_func = f := rfl

@[simp]
lemma make_arg_names {V S : Type} (f : List V → List (String × V) → V)
    (ns : Option (List String)) (sp : Option (List S))
    (kw : Option (List (String × S))) :
    (_tf_function_wrapper.make f ns sp kw).arg_names = ns := rfl

@[simp]
lemma make_arg_specs {V S : Type} (f : List V → List (String × V) → V)
    (ns : Option (List String)) (sp : Option (List S))
    (kw : Option (List (String × S))) :
    (_tf_function_wrapper.make f ns sp kw).arg_specs = sp := rfl

@[simp]
lemma make_kwarg_specs {V S : Type} (f : List V → List (String × V) → V)
    (ns : Option (List String)) (sp : Option (List S))
    (kw : Option (List (String × S))) :
    (_tf_function_wrapper.make f ns sp kw).kwarg_specs
      = some (mergedSpecs ns sp kw) := rfl

/-! Association-list lemmas about the dict operations, used to relate the
`__init__` merge to the lookup the spec describes. -/

@[simp]
lemma dlookup_nil {S : Type} (k : String) :
    dlookup ([] : List (String × S)) k = none := rfl

@[simp]
lemma dlookup_cons {S : Type} (k1 k : String) (v1 : S) (tl : List (String × S)) :
    dlookup ((k1, v1) :: tl) k = if k1 = k then some v1 else dlookup tl k := rfl

lemma dlookup_eq_none_of_not_mem {S : Type} (pairs : List (String × S))
    (k : String) (h : k ∉ pairs.map Prod.fst) : dlookup pairs k = none := by
  induction pairs with
  | nil => rfl
  | cons hd tl ih =>
    obtain ⟨k1, v1⟩ := hd
    simp only [List.map_cons, List.mem_cons] at h
    push_neg at h
    have hne : k1 ≠ k := fun hk => h.1 hk.symm
    simp [if_neg hne, ih h.2]

lemma dlookup_map_replace {S : Type} (d : List (String × S)) (k0 k : String)
    (v0 : S) :
    dlookup (d.map (fun p => if p.1 = k0 then (k0, v0) else p)) k
      = if k0 = k then (if (dlookup d k0).isSome then some v0 else none)
        else dlookup d k := by
  induction d with
  | nil => simp
  | cons hd tl ih =>
    obtain ⟨k1, v1⟩ := hd
    simp only [List.map_cons]
    by_cases h1 : k1 = k0
    · subst h1
      rw [show (if (k1, v1).1 = k1 then (k1, v0) else (k1, v1)) = (k1, v0) from by simp]
      by_cases hk : k1 = k
      · subst hk
        simp
      · simp only [dlookup_cons, if_neg hk, ih]
    · rw [show (if (k1, v1).1 = k0 then (k0, v0) else (k1, v1)) = (k1, v1) from by simp [h1]]
      by_cases hk : k1 = k
      · subst hk
        have hk0 : k0 ≠ k1 := fun hke => h1 hke.symm
        simp [if_neg hk0]
      · simp only [dlookup_cons, if_neg hk, ih]
        by_cases h3 : k0 = k
        · simp [if_pos h3, if_neg h1]
        · simp [if_neg h3]

lemma dlookup_append_single {S : Type} (d : List (String × S)) (k0 k : String)
    (v0 : S) :
    dlookup (d ++ [(k0, v0)]) k
      = match dlookup d k with
        | some v => some v
        | none => if k0 = k then some v0 else none := by
  induction d with
  | nil => simp
  | cons hd tl ih =>
    obtain ⟨k1, v1⟩ := hd
    by_cases h : k1 = k
    · simp [if_pos h]
    · simp [if_neg h, ih]

lemma dlookup_dictInsert {S : Type} (d : List (String × S)) (k0 k : String)
    (v0 : S) :
    dlookup (dictInsert d k0 v0) k
      = if k0 = k then some v0 else dlookup d k := by
  unfold dictInsert
  rcases hd : dlookup d k0 with _ | v
  · simp only [hd, Option.isSome_none, Bool.false_eq_true, if_false,
      dlookup_append_single]
    by_cases h : k0 = k
    · subst h
      simp [hd]
    · simp [if_neg h]
      rcases dlookup d k with _ | w <;> simp
  · simp only [hd, Option.isSome_some, if_true, dlookup_map_replace]

lemma dlookup_dictUpdate {S : Type} (kw : List (String × S))
    (h : (kw.map Prod.fst).Nodup) (d : List (String × S)) (k : String) :
    dlookup (dictUpdate d kw) k
      = match dlookup kw k with
        | some v => some v
        | none => dlookup d k := by
  induction kw generalizing d with
  | nil => simp [dictUpdate, dlookup]
  | cons hd tl ih =>
    obtain ⟨k0, v0⟩ := hd
    simp only [List.map_cons, List.nodup_cons] at h
    have step : dictUpdate d ((k0, v0) :: tl) = dictUpdate (dictInsert d k0 v0) tl := rfl
    rw [step, ih h.2]
    by_cases hk : k0 = k
    · subst hk
      have : dlookup tl k0 = none :=
        dlookup_eq_none_of_not_mem tl k0 h.1
      simp [this, dlookup, dlookup_dictInsert]
    · simp only [dlookup, if_neg hk]
      rcases dlookup tl k with _ | v
      · simp [dlookup_dictInsert, if_neg hk]
      · simp

lemma dlookup_dictFromPairs {S : Type} (pairs : List (String × S))
    (h : (pairs.map Prod.fst).Nodup) (k : String) :
    dlookup (dictFromPairs pairs) k = dlookup pairs k := by
  unfold dictFromPairs
  rw [dlookup_dictUpdate pairs h [] k]
  rcases dlookup pairs k with _ | v <;> simp [dlookup]

lemma zip_map_fst_eq_take {S : Type} (ns : List String) (ss : List S) :
    (ns.zip ss).map Prod.fst = ns.take ss.length := by
  induction ns generalizing ss with
  | nil => simp
  | cons n nt ih =>
    cases ss with
    | nil => simp
    | cons s st => simp [List.zip_cons_cons, ih]

/-! Behaviour of the keyword-validation loop and of the keyword coercion
comprehension. -/

lemma checkKwargs_eq_ok {V S : Type} (d : List (String × S))
    (kwargs : List (String × V))
    (h : ∀ p ∈ kwargs, (dlookup d p.1).isSome = true) :
    checkKwargs (V := V) (some d) kwargs = .ok () := by
  induction kwargs with
  | nil => rfl
  | cons hd tl ih =>
    obtain ⟨k, v⟩ := hd
    have hk := h (k, v) (List.mem_cons_self _ _)
    simp only [checkKwargs, hk, if_true]
    exact ih (fun p hp => h p (List.mem_cons_of_mem _ hp))

lemma checkKwargs_unknown {V S : Type} (d : List (String × S))
    (kwargs : List (String × V))
    (h : ∃ p ∈ kwargs, dlookup d p.1 = none) :
    ∃ k, dlookup d k = none ∧ (∃ v, (k, v) ∈ kwargs) ∧
      checkKwargs (V := V) (some d) kwargs
        = .error (PyErr.unexpectedKeyword k) := by
  induction kwargs with
  | nil => simp at h
  | cons hd tl ih =>
    obtain ⟨k0, v0⟩ := hd
    rcases hd0 : dlookup d k0 with _ | s
    · refine ⟨k0, hd0, ⟨v0, List.mem_cons_self _ _⟩, ?_⟩
      simp [checkKwargs, hd0]
    · have htl : ∃ p ∈ tl, dlookup d p.1 = none := by
        obtain ⟨p, hp, hnone⟩ := h
        rcases List.mem_cons.mp hp with heq | hmem
        · exfalso
          rw [heq] at hnone
          simp only at hnone
          rw [hnone] at hd0
          exact Option.noConfusion hd0
        · exact ⟨p, hmem, hnone⟩
      obtain ⟨k, hk, ⟨v, hv⟩, hcheck⟩ := ih htl
      refine ⟨k, hk, ⟨v, List.mem_cons_of_mem _ hv⟩, ?_⟩
      simp [checkKwargs, hd0, hcheck]

lemma transformKwargs_ok {V S : Type} (cast : V → S → V)
    (d : List (String × S)) (kwargs : List (String × V))
    (h : ∀ p ∈ kwargs, (dlookup d p.1).isSome = true) :
    ∃ tk, transformKwargs cast (some d) kwargs = .ok tk := by
  induction kwargs with
  | nil => exact ⟨[], rfl⟩
  | cons hd tl ih =>
    obtain ⟨k, v⟩ := hd
    have hk := h (k, v) (List.mem_cons_self _ _)
    obtain ⟨s, hs⟩ := Option.isSome_iff_exists.mp hk
    obtain ⟨tl2, htl⟩ := ih (fun p hp => h p (List.mem_cons_of_mem _ hp))
    exact ⟨(k, cast v s) :: tl2, by simp [transformKwargs, hs, htl]⟩

/-! ## Claim C1

The spec says a wrapper built with no positional and no keyword specs
forwards every call unmodified to the original callable.  The code cannot
do that: `__init__` (line 104) always stores a dict in `self.kwarg_specs`,
so the pass-through test `self.kwarg_specs is None` on line 108 is never
true, and a call on a no-spec wrapper instead reaches
`zip(self.arg_names, args)` with `arg_names = None` and raises
`TypeError`.  The explicit pass-through branch in the code shows the
spec is the intent and the code a slip. -/

/-- C1 (code bug): a `_tf_function_wrapper` constructed with no positional
specs and no keyword specs does not forward a call; the call raises the
`TypeError` of iterating `None`, whatever the original callable and the
coercion function are, because the merged `kwarg_specs` attribute is a
dict (never `None`), making the line-108 pass-through branch unreachable. -/
theorem c1_no_spec_wrapper_raises :
    (∀ (f : List Nat → List (String × Nat) → Nat) (cast : Nat → Nat → Nat),
        tfCall cast (_tf_function_wrapper.make f none none none) [0] []
          = Except.error PyErr.noneNotIterable)
    ∧ (∀ (A B : Type) (f : List A → List (String × A) → A)
        (ns : Option (List String)) (sp : Option (List B))
        (kw : Option (List (String × B))),
        ((_tf_function_wrapper.make f ns sp kw).kwarg_specs).isSome = true) := by
  constructor
  · intro f cast
    rfl
  · intro A B f ns sp kw
    rfl

/-! ## Claim C2

The spec says positional arguments beyond the recorded spec list are
passed through uncoerced to the original callable.  The code instead
builds the delegated positional tuple with `zip(args,
self.arg_specs)` (line 124), which stops at the shorter list: arguments
beyond the spec list are silently dropped and never reach the callable. -/

/-- C2 counterexample: a wrapper with one recorded positional spec,
called with two positional arguments.  The original callable reports how
many positional arguments it received: it receives 1, not 2, so the
second argument was dropped rather than passed through. -/
theorem c2_counterexample :
    tfCall (fun (v : Nat) (s : Nat) => v + 100 * s)
        (_tf_function_wrapper.make (fun a _ => a.length) (some ["a"])
          (some [1]) none) [5, 7] []
      = Except.ok 1
    ∧ tfCall (fun (v : Nat) (s : Nat) => v + 100 * s)
        (_tf_function_wrapper.make (fun a _ => a.length) (some ["a"])
          (some [1]) none) [5, 7] []
      ≠ Except.ok 2 := by
  constructor
  · rfl
  · intro h
    rw [show tfCall (fun (v : Nat) (s : Nat) => v + 100 * s)
        (_tf_function_wrapper.make (fun a _ => a.length) (some ["a"])
          (some [1]) none) [5, 7] [] = Except.ok 1 from rfl] at h
    simp at h

/-- C2 as amended: with a recorded positional spec list of length `n`, a
call with more than `n` positional arguments (and keyword arguments that
are all known and not duplicated) is not an error, but only the first `n`
positional arguments — coerced against their specs — reach the original
callable; the arguments beyond position `n` are dropped. -/
theorem c2_amended {V S : Type} (f : List V → List (String × V) → V)
    (cast : V → S → V) (ns : List String) (specs : List S)
    (kw : List (String × S)) (args : List V) (kwargs : List (String × V))
    (h1 : ∀ p ∈ kwargs,
      (dlookup (mergedSpecs (some ns) (some specs) (some kw)) p.1).isSome = true)
    (h2 : dupKeys ((ns.zip args).map Prod.fst) (kwargs.map Prod.fst) = [])
    (h3 : specs.length < args.length) :
    ∃ tk, transformKwargs cast (some (mergedSpecs (some ns) (some specs) (some kw)))
        kwargs = .ok tk
      ∧ tfCall cast (_tf_function_wrapper.make f (some ns) (some specs) (some kw))
          args kwargs
        = Except.ok (f ((args.zip specs).map (fun p => cast p.1 p.2)) tk)
      ∧ ((args.zip specs).map (fun p => cast p.1 p.2)).length = specs.length := by
  have hc := checkKwargs_eq_ok (V := V)
    (mergedSpecs (some ns) (some specs) (some kw)) kwargs h1
  obtain ⟨tk, htk⟩ := transformKwargs_ok cast
    (mergedSpecs (some ns) (some specs) (some kw)) kwargs h1
  refine ⟨tk, htk, ?_, ?_⟩
  · simp only [tfCall, make_arg_specs, make_kwarg_specs, make_arg_names,
      make_origin_func, Option.isNone_some, Bool.and_false, Bool.false_eq_true,
      if_false, hc, getArgKeys, h2, if_pos, transformArgs, htk]
  · rw [List.length_map, List.length_zip]
    exact Nat.min_eq_right (Nat.le_of_lt h3)

/-! ## Claim C3

Unknown keyword arguments: lines 111-113 run before the ambiguity check,
before any coercion, and before the delegation, and raise
`TypeError(f"Function got an unexpected keyword argument {k}")` at the
first supplied keyword whose name is missing from the merged spec dict. -/

/-- C3: if some supplied keyword name is missing from the merged spec
lookup, the call fails with the unexpected-keyword `TypeError` naming an
offending supplied key, and the result does not depend on the original
callable or on the coercion function — the callable is never invoked and
no coercion is performed. -/
theorem c3_unknown_keyword_rejected {V S : Type} (ns : Option (List String))
    (sp : Option (List S)) (kw : Option (List (String × S)))
    (args : List V) (kwargs : List (String × V))
    (h : ∃ p ∈ kwargs, dlookup (mergedSpecs ns sp kw) p.1 = none) :
    ∃ k, dlookup (mergedSpecs ns sp kw) k = none ∧ (∃ v, (k, v) ∈ kwargs) ∧
      ∀ (f : List V → List (String × V) → V) (cast : V → S → V),
        tfCall cast (_tf_function_wrapper.make f ns sp kw) args kwargs
          = Except.error (PyErr.unexpectedKeyword k) := by
  obtain ⟨k, hk, hv, hcheck⟩ :=
    checkKwargs_unknown (V := V) (mergedSpecs ns sp kw) kwargs h
  refine ⟨k, hk, hv, ?_⟩
  intro f cast
  simp only [tfCall, make_arg_specs, make_kwarg_specs, Option.isNone_some,
    Bool.and_false, Bool.false_eq_true, if_false, hcheck]

/-- Witness for C3 at a concrete input: merged specs `{a ↦ 0}`, keyword
argument `z` supplied. -/
theorem c3_unknown_keyword_rejected_witness :
    ∃ k, dlookup (mergedSpecs (some ["a"]) (some [(0 : Nat)]) none) k = none
      ∧ (∃ v, (k, v) ∈ [("z", (1 : Nat))]) ∧
      ∀ (f : List Nat → List (String × Nat) → Nat) (cast : Nat → Nat → Nat),
        tfCall cast (_tf_function_wrapper.make f (some ["a"]) (some [0]) none)
            [] [("z", 1)]
          = Except.error (PyErr.unexpectedKeyword k) :=
  c3_unknown_keyword_rejected (some ["a"]) (some [0]) none [] [("z", 1)]
    (by decide)

/-- Witness for the amended C2 at a concrete input: one recorded spec,
two positional arguments, original callable counting its positional
arguments — it receives exactly one. -/
theorem c2_amended_witness :
    ∃ tk, transformKwargs (fun (v : Nat) (s : Nat) => v + s)
        (some (mergedSpecs (some ["a"]) (some [(1 : Nat)]) (some [])))
        ([] : List (String × Nat)) = .ok tk
      ∧ tfCall (fun (v : Nat) (s : Nat) => v + s)
          (_tf_function_wrapper.make (fun a _ => a.length) (some ["a"])
            (some [(1 : Nat)]) (some [])) [5, 7] []
        = Except.ok 1
      ∧ (([5, 7].zip [(1 : Nat)]).map (fun p => p.1 + p.2)).length = 1 :=
  c2_amended (fun a _ => a.length) (fun v s => v + s) ["a"] [1] [] [5, 7] []
    (by simp) (by decide) (by decide)

/-! ## Claim C4

The spec says a name supplied both positionally and by keyword always
fails with the duplicate-argument error of line 118.  The unknown-keyword
check of lines 111-113 runs first, however: when the duplicated name is
absent from the merged spec dict (possible when fewer positional specs
than parameter names were recorded, since the merged dict only covers the
zipped prefix), the call fails with the unexpected-keyword error
instead. -/

/-- C4 counterexample: parameter names `a, b` with a single positional
spec, called with two positional arguments and keyword `b`.  The name `b`
is supplied both positionally and by keyword, yet the call fails with the
unexpected-keyword error, not the duplicate-argument error the claim
requires. -/
theorem c4_counterexample :
    tfCall (fun (v : Nat) (_ : Nat) => v)
        (_tf_function_wrapper.make (fun _ _ => (0 : Nat)) (some ["a", "b"])
          (some [(0 : Nat)]) none) [1, 2] [("b", 3)]
      = Except.error (PyErr.unexpectedKeyword "b")
    ∧ "b" ∈ ((["a", "b"].zip [(1 : Nat), 2]).map Prod.fst)
    ∧ "b" ∈ ([("b", (3 : Nat))].map Prod.fst)
    ∧ ∀ ks, (Except.error (PyErr.unexpectedKeyword "b") : Except PyErr Nat)
        ≠ Except.error (PyErr.duplicateArguments ks) := by
  refine ⟨rfl, by decide, by decide, fun ks => ?_⟩
  simp

/-- C4 as amended: when additionally every supplied keyword name exists
in the merged spec lookup, a name supplied both positionally and by
keyword makes the call fail with the duplicate-argument error listing the
conflicting names, and the failure does not depend on the coercion
function or on the original callable (it happens before any coercion and
before delegation). -/
theorem c4_amended {V S : Type} (f : List V → List (String × V) → V)
    (cast : V → S → V) (ns : List String) (specs : List S)
    (kw : List (String × S)) (args : List V) (kwargs : List (String × V))
    (h1 : ∀ p ∈ kwargs,
      (dlookup (mergedSpecs (some ns) (some specs) (some kw)) p.1).isSome = true)
    (h2 : dupKeys ((ns.zip args).map Prod.fst) (kwargs.map Prod.fst) ≠ []) :
    tfCall cast (_tf_function_wrapper.make f (some ns) (some specs) (some kw))
        args kwargs
      = Except.error (PyErr.duplicateArguments
          (dupKeys ((ns.zip args).map Prod.fst) (kwargs.map Prod.fst))) := by
  have hc := checkKwargs_eq_ok (V := V)
    (mergedSpecs (some ns) (some specs) (some kw)) kwargs h1
  simp only [tfCall, make_arg_specs, make_kwarg_specs, make_arg_names,
    make_origin_func, Option.isNone_some, Bool.and_false, Bool.false_eq_true,
    if_false, hc, getArgKeys]
  rw [if_neg h2]

/-- Witness for the amended C4 at a concrete input: parameter `a` supplied
both positionally and by keyword, with its name present in the merged
lookup. -/
theorem c4_amended_witness :
    tfCall (fun (v : Nat) (s : Nat) => v + s)
        (_tf_function_wrapper.make (fun _ _ => (0 : Nat)) (some ["a"])
          (some [(1 : Nat)]) (some [])) [5] [("a", 7)]
      = Except.error (PyErr.duplicateArguments ["a"]) :=
  c4_amended (fun _ _ => 0) (fun v s => v + s) ["a"] [1] [] [5] [("a", 7)]
    (by decide) (by decide)

/-! ## Claim C5

The merged spec lookup built by `__init__` (lines 104-105). -/

/-- Spec-side description of the merged lookup (spec §4.3): the map
obtained by first zipping the ordered names against the positional specs
(pairing stops at the shorter list) and then overlaying the explicit
keyword-spec mapping, with the explicit keyword specs taking precedence
for any name present in both. -/
def specMergedLookup {S : Type} (names : List String) (argSpecs : List S)
    (kw : List (String × S)) (k : String) : Option S :=
  match dlookup kw k with
  | some v => some v
  | none => dlookup (names.zip argSpecs) k

/-- C5: for every construction with ordered parameter names, positional
specs and a keyword-spec mapping (names pairwise distinct and the
keyword mapping a well-formed dict), the merged spec dict of `__init__`
agrees, key by key, with the spec-side description: zip first, then
overlay the explicit keyword specs with precedence. -/
theorem c5_merged_lookup {S : Type} (names : List String) (argSpecs : List S)
    (kw : List (String × S)) (h1 : names.Nodup)
    (h2 : (kw.map Prod.fst).Nodup) (k : String) :
    dlookup (mergedSpecs (some names) (some argSpecs) (some kw)) k
      = specMergedLookup names argSpecs kw k := by
  have hzip : ((names.zip argSpecs).map Prod.fst).Nodup := by
    rw [zip_map_fst_eq_take]
    exact h1.sublist (List.take_sublist _ _)
  unfold mergedSpecs
  simp only [Option.getD_some]
  rw [dlookup_dictUpdate kw h2, dlookup_dictFromPairs _ hzip]
  rfl

/-- Witness for C5 at a concrete input: names `a, b`, one positional
spec, explicit keyword spec for `b`. -/
theorem c5_merged_lookup_witness :
    dlookup (mergedSpecs (some ["a", "b"]) (some [(1 : Nat)]) (some [("b", 5)])) "b"
      = specMergedLookup ["a", "b"] [(1 : Nat)] [("b", 5)] "b" :=
  c5_merged_lookup ["a", "b"] [1] [("b", 5)] (by decide) (by decide) "b"

/-! ## Runner resource properties (tensorflow.py lines 86-90 and 399-413)

The resource quota object comes from the external runner base class; only
its two fields read here are modelled: the GPU-affinity flag `on_gpu` and
the declared CPU count `cpu` (a number, possibly fractional).  The
tensorflow device inventory is the list returned by
`tf.config.list_physical_devices("GPU")`. -/

/-- Resource quota of a runner: GPU affinity and declared CPU count. -/
structure ResourceQuota where
  on_gpu : Bool
  cpu : ℚ

/-- Tensorflow device inventory visible to the process. -/
structure TFDevices where
  gpu_devices : List String

/-- Embedding of `_is_gpu_available` (lines 86-90):
`len(tf.config.list_physical_devices("GPU")) > 0`.  The
`AttributeError` fallback to `tf.test.is_gpu_available()` for old
tensorflow versions answers the same question and is not modelled
separately. -/
def _is_gpu_available (env : TFDevices) : Bool :=
  decide (0 < env.gpu_devices.length)

/-- Python 3 `round` on a number: round half to even, returning an
integer. -/
def pythonRound (q : ℚ) : ℤ :=
  let f : ℤ := ⌊q⌋
  let r : ℚ := q - f
  if r < 1 / 2 then f
  else if 1 / 2 < r then f + 1
  else if f % 2 = 0 then f else f + 1

/-- Embedding of the property `_TensorflowRunner.num_concurrency_per_replica`
(lines 403-407): 1 when a GPU is available and the quota requests GPU,
else `int(round(self.resource_quota.cpu))`. -/
def num_concurrency_per_replica (q : ResourceQuota) (env : TFDevices) : ℤ :=
  if _is_gpu_available env && q.on_gpu then 1 else pythonRound q.cpu

/-- Embedding of the property `_TensorflowRunner.num_replica`
(lines 409-413): the number of physical GPU devices when a GPU is
available and the quota requests GPU, else 1. -/
def num_replica (q : ResourceQuota) (env : TFDevices) : ℕ :=
  if _is_gpu_available env && q.on_gpu then env.gpu_devices.length else 1

/-- C6: `num_replica` is the number of available GPU devices when the
quota requests GPU and a GPU is actually available, and is 1 in every
other case — in particular whenever the quota does not request GPU,
regardless of how many GPUs the host has, and whenever no GPU is
available. -/
theorem c6_num_replica (q : ResourceQuota) (env : TFDevices) :
    (q.on_gpu = true → 0 < env.gpu_devices.length →
      num_replica q env = env.gpu_devices.length)
    ∧ (q.on_gpu = false → num_replica q env = 1)
    ∧ (env.gpu_devices.length = 0 → num_replica q env = 1) := by
  refine ⟨?_, ?_, ?_⟩
  · intro hg hl
    have ha : _is_gpu_available env = true := by
      simp [_is_gpu_available, hl]
    simp [num_replica, ha, hg]
  · intro hg
    simp [num_replica, hg]
  · intro hl
    have ha : _is_gpu_available env = false := by
      simp [_is_gpu_available, hl]
    simp [num_replica, ha]

/-- Witness for C6: two GPUs available and requested gives 2 replicas;
no GPU requested on the same host gives 1. -/
theorem c6_num_replica_witness :
    num_replica ⟨true, 4⟩ ⟨["GPU:0", "GPU:1"]⟩ = 2
    ∧ num_replica ⟨false, 4⟩ ⟨["GPU:0", "GPU:1"]⟩ = 1 :=
  ⟨(c6_num_replica ⟨true, 4⟩ ⟨["GPU:0", "GPU:1"]⟩).1 rfl (by decide),
   (c6_num_replica ⟨false, 4⟩ ⟨["GPU:0", "GPU:1"]⟩).2.1 rfl⟩

/-- C7: `num_concurrency_per_replica` is exactly 1 when the quota
requests GPU and a GPU is available — never the raw CPU count — and in
every other case is the CPU quota rounded to an integer. -/
theorem c7_num_concurrency (q : ResourceQuota) (env : TFDevices) :
    (q.on_gpu = true → 0 < env.gpu_devices.length →
      num_concurrency_per_replica q env = 1)
    ∧ (q.on_gpu = false →
      num_concurrency_per_replica q env = pythonRound q.cpu)
    ∧ (env.gpu_devices.length = 0 →
      num_concurrency_per_replica q env = pythonRound q.cpu) := by
  refine ⟨?_, ?_, ?_⟩
  · intro hg hl
    have ha : _is_gpu_available env = true := by
      simp [_is_gpu_available, hl]
    simp [num_concurrency_per_replica, ha, hg]
  · intro hg
    simp [num_concurrency_per_replica, hg]
  · intro hl
    have ha : _is_gpu_available env = false := by
      simp [_is_gpu_available, hl]
    simp [num_concurrency_per_replica, ha]

/-- Witness for C7: CPU quota 4 with GPU requested and available gives
concurrency 1, not 4; the same quota without GPU gives the rounded CPU
count 4. -/
theorem c7_num_concurrency_witness :
    num_concurrency_per_replica ⟨true, 4⟩ ⟨["GPU:0", "GPU:1"]⟩ = 1
    ∧ num_concurrency_per_replica ⟨false, 4⟩ ⟨["GPU:0", "GPU:1"]⟩
        = pythonRound 4 :=
  ⟨(c7_num_concurrency ⟨true, 4⟩ ⟨["GPU:0", "GPU:1"]⟩).1 rfl (by decide),
   (c7_num_concurrency ⟨false, 4⟩ ⟨["GPU:0", "GPU:1"]⟩).2.1 rfl⟩

/-! ## Model Loader (tensorflow.py lines 169-244)

The registry entry returned by `model_store.get(tag)` is modelled by its
fields read in `load`: the framework-context keys, the stored
`options["local_path"]`, and the artifact path.  The tensorflow and
tensorflow-hub collaborators are an environment record: whether
`tf.saved_model` has `LoadOptions` (TF ≥ 2.3), the version string, the
file-existence test `tf.io.gfile.exists` and the hub helper
`native_module.get_module_proto_path`.  The observable side effects of a
load are recorded as an action trace. -/

/-- Registry entry fields read by `load`. -/
structure ModelInfo where
  context : List String
  local_path : String
  path : String

/-- External-collaborator facts `load` consults. -/
structure LoadEnv where
  hasLoadOptions : Bool
  version : String
  fileExists : String → Bool
  moduleProtoPath : String → String

/-- Module-resolution and loading side effects of `load`, in order. -/
inductive LoadAction where
  | hubWrapperLoad (path : String)
  | hubSavedModelLoad (path : String) (tags : Option (List String)) (withOptions : Bool)
  | plainLoad (path : String)
  | hookModel
  deriving DecidableEq, Repr

/-- Errors `load` raises before producing a model. -/
inductive LoadErr where
  | assertLoadAsWrapper
  | optionsNotSupported (version : String)
  deriving DecidableEq, Repr

/-- What `load` returns. -/
inductive LoadResult where
  | hubWrapper (path : String)
  | hubSavedModel (path : String) (is_v1 : Bool)
  | plainModel (path : String)
  deriving DecidableEq, Repr

/-- Embedding of `load` (lines 199-244), from the point where the
registry entry is in hand: the hub branch asserts that `load_as_wrapper`
was given, then either loads the wrapper class or loads the raw saved
model (detecting legacy v1 hub modules and defaulting their tag set, and
rejecting load options when the framework predates them); the plain
branch loads the saved model and applies the bulk wrapper hook. -/
def load (info : ModelInfo) (tfhub_tags : Option (List String))
    (has_tfhub_options : Bool) (load_as_wrapper : Option Bool)
    (env : LoadEnv) : List LoadAction × Except LoadErr LoadResult :=
  if "tensorflow_hub" ∈ info.context then
    match load_as_wrapper with
    | none => ([], Except.error LoadErr.assertLoadAsWrapper)
    | some b =>
      let module_path := info.local_path
      if b then
        ([LoadAction.hubWrapperLoad module_path],
          Except.ok (LoadResult.hubWrapper module_path))
      else
        let is_hub_module_v1 := env.fileExists (env.moduleProtoPath module_path)
        let tags := if tfhub_tags.isNone && is_hub_module_v1 then some [] else tfhub_tags
        if has_tfhub_options then
          if env.hasLoadOptions then
            ([LoadAction.hubSavedModelLoad module_path tags true],
              Except.ok (LoadResult.hubSavedModel module_path is_hub_module_v1))
          else
            ([], Except.error (LoadErr.optionsNotSupported env.version))
        else
          ([LoadAction.hubSavedModelLoad module_path tags false],
            Except.ok (LoadResult.hubSavedModel module_path is_hub_module_v1))
  else
    ([LoadAction.plainLoad info.path, LoadAction.hookModel],
      Except.ok (LoadResult.plainModel info.path))

/-- C8: loading a registry entry whose framework-context marks it as a
tensorflow-hub module, with `load_as_wrapper` left `None`, fails
immediately with the usage error of lines 201-209, with an empty action
trace: no module resolution or loading is attempted and no silent default
is applied. -/
theorem c8_hub_requires_wrapper_choice (info : ModelInfo)
    (tfhub_tags : Option (List String)) (has_tfhub_options : Bool)
    (env : LoadEnv) (h : "tensorflow_hub" ∈ info.context) :
    load info tfhub_tags has_tfhub_options none env
      = ([], Except.error LoadErr.assertLoadAsWrapper) := by
  simp [load, h]

/-- Witness for C8 at a concrete registry entry marked as hub-sourced. -/
theorem c8_hub_requires_wrapper_choice_witness :
    load ⟨["tensorflow", "tensorflow_hub"], "localp", "storep"⟩ none false none
        ⟨true, "2.5.0", fun _ => false, fun s => s⟩
      = ([], Except.error LoadErr.assertLoadAsWrapper) :=
  c8_hub_requires_wrapper_choice ⟨["tensorflow", "tensorflow_hub"], "localp", "storep"⟩
    none false ⟨true, "2.5.0", fun _ => false, fun s => s⟩ (by decide)

/-! ## Model Persister (tensorflow.py lines 302-367)

The model argument is either a filesystem path or an in-memory model
object; the registry `register` scope, the artifact copy, the native
save call and the commit of the entry are recorded as an action trace. -/

/-- The model argument of `save`: a filesystem path (str, bytes,
os.PathLike or pathlib.Path) or an in-memory model object. -/
inductive SaveModel where
  | pathModel (p : String)
  | objModel
  deriving DecidableEq, Repr

/-- Side effects of `save`, in order. -/
inductive SaveAction where
  | registerEnter
  | copyTree (src : String) (dst : String)
  | tfSave (dst : String) (withOptions : Bool)
  | warnOptionsIgnored
  | commit
  deriving DecidableEq, Repr

/-- Errors `save` raises: the line-353 assertion that a path argument is
a directory. -/
inductive SaveErr where
  | notADirectory (p : String)
  deriving DecidableEq, Repr

/-- External-collaborator facts `save` consults: the framework major
version, the filesystem directory test, and the path and tag of the
freshly registered entry. -/
structure SaveEnv where
  tf2 : Bool
  isDir : String → Bool
  ctxPath : String
  ctxTag : String

/-- Embedding of `save` (lines 344-367): inside the registration scope,
a path argument is asserted to be a directory and copied verbatim;
an in-memory model goes through the native save routine, with the
options parameter dropped (after a warning) on a TF1 framework.  The
entry is committed only when the scope completes without error. -/
def save (model : SaveModel) (has_options : Bool) (env : SaveEnv) :
    List SaveAction × Except SaveErr String :=
  match model with
  | SaveModel.pathModel p =>
    if env.isDir p then
      ([SaveAction.registerEnter, SaveAction.copyTree p env.ctxPath,
        SaveAction.commit], Except.ok env.ctxTag)
    else
      ([SaveAction.registerEnter], Except.error (SaveErr.notADirectory p))
  | SaveModel.objModel =>
    if env.tf2 then
      ([SaveAction.registerEnter, SaveAction.tfSave env.ctxPath has_options,
        SaveAction.commit], Except.ok env.ctxTag)
    else if has_options then
      ([SaveAction.registerEnter, SaveAction.warnOptionsIgnored,
        SaveAction.tfSave env.ctxPath false, SaveAction.commit],
        Except.ok env.ctxTag)
    else
      ([SaveAction.registerEnter, SaveAction.tfSave env.ctxPath false,
        SaveAction.commit], Except.ok env.ctxTag)

/-- C9: saving a filesystem path that is not a directory fails with the
line-353 assertion, immediately inside the registration scope — the
trace records that the registration scope was entered and nothing else:
no artifact copy is performed and the entry is never committed. -/
theorem c9_save_path_requires_directory (p : String) (has_options : Bool)
    (env : SaveEnv) (h : env.isDir p = false) :
    save (SaveModel.pathModel p) has_options env
      = ([SaveAction.registerEnter], Except.error (SaveErr.notADirectory p)) := by
  simp [save, h]

/-- Witness for C9 at a concrete non-directory path. -/
theorem c9_save_path_requires_directory_witness :
    save (SaveModel.pathModel "somefile") false
        ⟨true, fun _ => false, "entrypath", "m1:v1"⟩
      = ([SaveAction.registerEnter],
          Except.error (SaveErr.notADirectory "somefile")) :=
  c9_save_path_requires_directory "somefile" false
    ⟨true, fun _ => false, "entrypath", "m1:v1"⟩ rfl

/-! ## Bulk hook (tensorflow.py lines 136-154) -/

/-- A restored function as introspected by the external helpers: the
underlying callable, `get_arg_names(func)`, and
`get_input_signatures(func)` — a list of (positional specs, keyword
specs) pairs, one per concrete signature recorded at save time. -/
structure RestoredFunc (V S : Type) where
  func : List V → List (String × V) → V
  arg_names : List String
  sigs : List (List S × List (String × S))

/-- Per-function body of `hook_loaded_model` (lines 139-154): a function
with no recorded input signature is left unwrapped (`continue`);
otherwise the attribute is replaced by a wrapper built from
`sigs[0]`. -/
def hookFunc {V S : Type} (f : RestoredFunc V S) :
    Option (_tf_function_wrapper V S) :=
  match f.sigs with
  | [] => none
  | sig :: _ =>
    some (_tf_function_wrapper.make f.func (some f.arg_names)
      (some sig.1) (some sig.2))

/-- Embedding of `hook_loaded_model` (lines 136-154): every restored
function of the loaded model is hooked independently; `none` records
that the attribute was left as the original function. -/
def hook_loaded_model {V S : Type} (funcs : List (String × RestoredFunc V S)) :
    List (String × Option (_tf_function_wrapper V S)) :=
  funcs.map (fun p => (p.1, hookFunc p.2))

/-- C10: when a restored function records at least one concrete input
signature, the bulk hook builds its wrapper from signature index 0 alone;
all later recorded signatures are ignored — hooking the function gives
the same wrapper as hooking it with every signature after the first
removed. -/
theorem c10_hook_uses_first_signature {V S : Type} (f : RestoredFunc V S)
    (sig0 : List S × List (String × S))
    (rest : List (List S × List (String × S))) (h : f.sigs = sig0 :: rest) :
    hookFunc f = some (_tf_function_wrapper.make f.func (some f.arg_names)
        (some sig0.1) (some sig0.2))
    ∧ hookFunc f = hookFunc { f with sigs := [sig0] } := by
  constructor <;> simp [hookFunc, h]

/-- Witness for C10 at a concrete restored function with two recorded
signatures. -/
theorem c10_hook_uses_first_signature_witness :
    hookFunc ⟨fun _ _ => (0 : Nat), ["x"], [([1], [("y", 2)]), ([3], [])]⟩
      = some (_tf_function_wrapper.make (fun _ _ => (0 : Nat)) (some ["x"])
          (some [1]) (some [("y", 2)]))
    ∧ hookFunc (⟨fun _ _ => (0 : Nat), ["x"], [([1], [("y", 2)]), ([3], [])]⟩ : RestoredFunc Nat Nat)
      = hookFunc ⟨fun _ _ => (0 : Nat), ["x"], [([1], [("y", 2)])]⟩ :=
  c10_hook_uses_first_signature
    ⟨fun _ _ => (0 : Nat), ["x"], [([1], [("y", 2)]), ([3], [])]⟩
    ([1], [("y", 2)]) [([3], [])] rfl

end BentoTF
